import Mathlib

/-!
# Verification of the `hello-clustering` notebook pipeline

Shallow embedding of the original logic in
`notebook/clustering-tutorials/hello-clustering.ipynb`:

* `ignite_dataset` — the Document Loader (JSON file → document collection,
  optional top-level `mask` key);
* the cell-3 text/label extraction (`documents = [di["content"] for di in docs]`,
  `labels = [di["title"] for di in docs]`);
* `maybe_cuda_or_mps` — the Device Selector;
* `prepare2d` — the Tabular View Builder (assert on the 2-column shape of the
  reduced embeddings, `zip(..., strict=False)` over the five parallel columns,
  `pl.from_dicts`, column rename).

External collaborators (the JSON parser, the filesystem, torch availability
probes) are modelled as explicit function parameters; the numpy 2-D array of
reduced embeddings is modelled as a rectangular array given by an entry
function together with its shape.
-/

namespace HelloClustering

/-- A parsed JSON value, as produced by `json.load`. -/
inductive JsonVal where
  | null
  | bool (b : Bool)
  | num (n : Int)
  | str (s : String)
  | arr (elems : List JsonVal)
  | obj (fields : List (String × JsonVal))

/-- Key lookup in a JSON object's field list (Python `dict` indexing:
keys are unique, the first match is the value). -/
def lookupKey (fields : List (String × JsonVal)) (k : String) : Option JsonVal :=
  (fields.find? (fun p => p.1 = k)).map Prod.snd

/-- The failure modes of the Document Loader.  `notFound` models `open`
raising `FileNotFoundError`; `parseError` models `json.load` raising a
decode error; `keyError` models `docs[mask]` on a dict missing the key;
`typeError` models `docs[mask]` with a string key on a non-dict value. -/
inductive LoadError where
  | notFound
  | parseError
  | keyError
  | typeError
  deriving Repr, DecidableEq

/-- The Document Loader, from the notebook:

```python
def ignite_dataset(where, mask: str = None) -> list[dict]:
    docs = None
    with open(str(Path(where)), encoding="utf-8") as fin:
        docs = json.load(fin)
    if mask:
        return docs[mask]
    return docs
```

The filesystem is `readFile : String → Option String` (`none` = the path does
not exist) and the external JSON parser is `parse : String → Option JsonVal`
(`none` = invalid JSON).  `if mask:` is a Python truthiness test: `None` and
the empty string both take the `return docs` branch. -/
def ignite_dataset (readFile : String → Option String) (parse : String → Option JsonVal)
    (whereArg : String) (mask : Option String) : Except LoadError JsonVal :=
  match readFile whereArg with
  | none => .error .notFound
  | some raw =>
    match parse raw with
    | none => .error .parseError
    | some docs =>
      match mask with
      | none => .ok docs
      | some m =>
        if m = "" then .ok docs
        else
          match docs with
          | .obj fields =>
            match lookupKey fields m with
            | some v => .ok v
            | none => .error .keyError
          | _ => .error .typeError

/-- A loaded Document: a mapping from field names to string values
(`content`, `title`, ...). -/
abbrev Doc := List (String × String)

/-- Python `di[k]` on a Document, as an `Option` (`none` = `KeyError`). -/
def getField (d : Doc) (k : String) : Option String :=
  (d.find? (fun p => p.1 = k)).map Prod.snd

/-- `documents = [di["content"] for di in docs]` — fails (KeyError, the
spec's `SchemaError`) at the first Document lacking `content`. -/
def extractTexts (docs : List Doc) : Option (List String) :=
  docs.mapM (fun d => getField d "content")

/-- `labels = [di["title"] for di in docs]` — fails at the first Document
lacking `title`. -/
def extractLabels (docs : List Doc) : Option (List String) :=
  docs.mapM (fun d => getField d "title")

/-- The cell-3 Text/Label Extractor: both comprehensions in sequence;
any missing field aborts the extraction with no partial result. -/
def extract (docs : List Doc) : Option (List String × List String) := do
  let ts ← extractTexts docs
  let ls ← extractLabels docs
  pure (ts, ls)

/-- The Device Selector, from the notebook:

```python
def maybe_cuda_or_mps():
    if torch.cuda.is_available():
        return "cuda:0"
    elif torch.has_mps:
        return "mps"
    else:
        return "cpu"
```

The two runtime availability probes are passed in as booleans; the embedding
is a pure function of them, hence deterministic for a fixed runtime state. -/
def maybe_cuda_or_mps (cuda_is_available : Bool) (has_mps : Bool) : String :=
  if cuda_is_available then "cuda:0"
  else if has_mps then "mps"
  else "cpu"

/-- A rectangular 2-D numeric array (numpy `ndarray` of shape
`(nrows, ncols)`), given by its shape and entry function. -/
structure NDArray2 (α : Type) where
  nrows : Nat
  ncols : Nat
  entry : Nat → Nat → α

/-- Column `j` of the array, as a list: `arr[:, j]`. -/
def NDArray2.col (re : NDArray2 α) (j : Nat) : List α :=
  (List.range re.nrows).map (fun i => re.entry i j)

/-- Python `zip(a, b, c, d, e, strict=False)`: truncates every sequence to
the length of the shortest one. -/
def zip5 : List A → List B → List C → List D → List E → List (A × B × C × D × E)
  | x :: xs, y :: ys, z :: zs, u :: us, v :: vs => (x, y, z, u, v) :: zip5 xs ys zs us vs
  | _, _, _, _, _ => []

/-- Failure modes of `prepare2d`: `assertionError` is the
`assert reduced_embeddings.shape[1] == 2` contract check firing;
`noDataError` is `pl.from_dicts` given zero rows (polars cannot infer a
schema from no data). -/
inductive P2DError where
  | assertionError
  | noDataError
  deriving Repr, DecidableEq

/-- The polars DataFrame produced by `prepare2d`: an ordered list of column
names and the row tuples (text, topic, label, x, y). -/
structure Table (T K L α : Type) where
  columns : List String
  rows : List (T × K × L × α × α)
  deriving Repr, DecidableEq

/-- `COLS_MAPPING` from the notebook, as an association list. -/
def COLS_MAPPING : List (String × String) :=
  [("column_0", "text"), ("column_1", "topic"), ("column_2", "label"),
   ("column_3", "x"), ("column_4", "y")]

/-- `DataFrame.rename`: replace each column name by its image under the
mapping, leaving unmapped names unchanged. -/
def renameCols (cols : List String) (mapping : List (String × String)) : List String :=
  cols.map (fun c =>
    match mapping.find? (fun p => p.1 = c) with
    | some p => p.2
    | none => c)

/-- The Tabular View Builder, from the notebook:

```python
def prepare2d(docs, topics, labels, reduced_embeddings):
    assert reduced_embeddings.shape[1] == 2, ...
    COLS_MAPPING = dict(column_0="text", column_1="topic", column_2="label",
                        column_3="x", column_4="y")
    pl_view = pl.from_dicts(
        zip(docs, topics, labels,
            reduced_embeddings[:, 0], reduced_embeddings[:, 1], strict=False))
    pl_view = pl_view.rename(COLS_MAPPING)
    return pl_view
```

The assert runs first; then the five parallel sequences are zipped with
`strict=False` (silent truncation to the shortest); `pl.from_dicts` names the
positional columns `column_0` … `column_4` and fails on zero rows; the rename
gives the final `text, topic, label, x, y` header. -/
def prepare2d (docs : List T) (topics : List K) (labels : List L)
    (reduced_embeddings : NDArray2 α) : Except P2DError (Table T K L α) :=
  if reduced_embeddings.ncols = 2 then
    let rows := zip5 docs topics labels (reduced_embeddings.col 0) (reduced_embeddings.col 1)
    if rows.isEmpty then .error .noDataError
    else .ok ⟨renameCols ["column_0", "column_1", "column_2", "column_3", "column_4"]
               COLS_MAPPING, rows⟩
  else .error .assertionError

/-! ## Theorems -/

/-- C8: the Device Selector returns `"cuda:0"` whenever the primary
accelerator probe is true, otherwise `"mps"` whenever the secondary probe is
true, otherwise `"cpu"`; its result is always one of these three strings.
Determinism is immediate: the embedding is a pure function of the two
availability probes. -/
theorem maybe_cuda_or_mps_policy :
    (∀ m : Bool, maybe_cuda_or_mps true m = "cuda:0") ∧
    maybe_cuda_or_mps false true = "mps" ∧
    maybe_cuda_or_mps false false = "cpu" ∧
    ∀ c m : Bool, maybe_cuda_or_mps c m ∈ (["cuda:0", "mps", "cpu"] : List String) := by
  refine ⟨fun _ => rfl, rfl, rfl, fun c m => ?_⟩
  cases c <;> cases m <;> simp [maybe_cuda_or_mps]

/-- C10: calling the Document Loader with `mask = ""` behaves exactly as
calling it with no mask: the two calls are equal on every filesystem and
parser, the empty-mask call never fails with `keyError`, and on a readable,
parseable file it returns the entire parsed structure. -/
theorem ignite_dataset_empty_mask (readFile : String → Option String)
    (parse : String → Option JsonVal) (whereArg : String) :
    ignite_dataset readFile parse whereArg (some "") =
      ignite_dataset readFile parse whereArg none ∧
    ignite_dataset readFile parse whereArg (some "") ≠ .error .keyError ∧
    (∀ raw dv, readFile whereArg = some raw → parse raw = some dv →
      ignite_dataset readFile parse whereArg (some "") = .ok dv) := by
  refine ⟨?_, ?_, ?_⟩
  · cases hr : readFile whereArg with
    | none => simp [ignite_dataset, hr]
    | some raw =>
      cases hp : parse raw with
      | none => simp [ignite_dataset, hr, hp]
      | some dv => simp [ignite_dataset, hr, hp]
  · cases hr : readFile whereArg with
    | none => simp [ignite_dataset, hr]
    | some raw =>
      cases hp : parse raw with
      | none => simp [ignite_dataset, hr, hp]
      | some dv => simp [ignite_dataset, hr, hp]
  · intro raw dv hr hp
    simp [ignite_dataset, hr, hp]

/-- C10 witness: a concrete readable file parsing to an object; the
empty-mask call returns the whole object. -/
theorem ignite_dataset_empty_mask_witness :
    ignite_dataset (fun _ => some "raw") (fun _ => some (.obj [("k", .str "v")]))
      "p" (some "") = .ok (.obj [("k", .str "v")]) :=
  (ignite_dataset_empty_mask (fun _ => some "raw")
    (fun _ => some (.obj [("k", .str "v")])) "p").2.2 "raw"
    (.obj [("k", .str "v")]) rfl rfl

/-- C6 counterexample: the claim "returns the value at the top-level key
`mask` when a mask is provided and that key is present" fails at
`mask = some ""` with the key `""` present: the loader returns the whole
object, not the value `"hidden"` stored at key `""`. -/
theorem ignite_dataset_mask_counterexample :
    ignite_dataset (fun _ => some "raw")
      (fun _ => some (.obj [("", .str "hidden")])) "p" (some "") =
      .ok (.obj [("", .str "hidden")]) ∧
    lookupKey [("", JsonVal.str "hidden")] "" = some (.str "hidden") ∧
    JsonVal.obj [("", .str "hidden")] ≠ JsonVal.str "hidden" := by
  refine ⟨rfl, rfl, ?_⟩
  intro h
  exact JsonVal.noConfusion h

/-- C6 (amended): the Document Loader returns the value at the top-level
key when a NON-EMPTY mask is provided and that key is present in the parsed
object, and returns the entire parsed structure unmodified when no mask is
provided or the mask is the empty string. -/
theorem ignite_dataset_mask_semantics (readFile : String → Option String)
    (parse : String → Option JsonVal) (whereArg : String) (raw : String)
    (dv : JsonVal) (hr : readFile whereArg = some raw) (hp : parse raw = some dv) :
    ignite_dataset readFile parse whereArg none = .ok dv ∧
    ignite_dataset readFile parse whereArg (some "") = .ok dv ∧
    ∀ m fields v, m ≠ "" → dv = .obj fields → lookupKey fields m = some v →
      ignite_dataset readFile parse whereArg (some m) = .ok v := by
  refine ⟨by simp [ignite_dataset, hr, hp], by simp [ignite_dataset, hr, hp], ?_⟩
  intro m fields v hm hdv hv
  subst hdv
  simp [ignite_dataset, hr, hp, hm, hv]

/-- C6 (amended) witness: concrete file `{"k": "v"}`; no mask and the empty
mask return the whole object, the mask `"k"` returns `"v"`. -/
theorem ignite_dataset_mask_semantics_witness :
    ignite_dataset (fun _ => some "raw") (fun _ => some (.obj [("k", .str "v")]))
      "p" (some "k") = .ok (.str "v") :=
  (ignite_dataset_mask_semantics (fun _ => some "raw")
      (fun _ => some (.obj [("k", .str "v")])) "p" "raw"
      (.obj [("k", .str "v")]) rfl rfl).2.2 "k" [("k", .str "v")] (.str "v")
    (by decide) rfl rfl

/-- C7 counterexample: the claim "fails with KeyError when a mask is given
but absent from the parsed structure" fails at `mask = some ""`: the key
`""` is absent from the parsed empty object, yet the loader succeeds and
returns the whole object instead of failing. -/
theorem ignite_dataset_failures_counterexample :
    ignite_dataset (fun _ => some "raw") (fun _ => some (.obj [])) "p" (some "") =
      .ok (.obj []) ∧
    lookupKey ([] : List (String × JsonVal)) "" = none ∧
    ∀ e : LoadError,
      ignite_dataset (fun _ => some "raw") (fun _ => some (.obj [])) "p" (some "") ≠
        .error e := by
  refine ⟨rfl, rfl, fun e h => ?_⟩
  exact Except.noConfusion h

/-- C7 (amended): the Document Loader fails with `notFound` when the path
does not exist, with `parseError` when the content is not valid JSON, and
with `keyError` when a NON-EMPTY mask is given but absent from the parsed
object; in each case the result is an error, so no collection is returned. -/
theorem ignite_dataset_failures (readFile : String → Option String)
    (parse : String → Option JsonVal) (whereArg : String) :
    (∀ mask, readFile whereArg = none →
      ignite_dataset readFile parse whereArg mask = .error .notFound) ∧
    (∀ mask raw, readFile whereArg = some raw → parse raw = none →
      ignite_dataset readFile parse whereArg mask = .error .parseError) ∧
    (∀ m raw fields, readFile whereArg = some raw →
      parse raw = some (.obj fields) → m ≠ "" → lookupKey fields m = none →
      ignite_dataset readFile parse whereArg (some m) = .error .keyError) := by
  refine ⟨fun mask h => by simp [ignite_dataset, h],
    fun mask raw hr hp => by cases mask <;> simp [ignite_dataset, hr, hp],
    fun m raw fields hr hp hm hk => by simp [ignite_dataset, hr, hp, hm, hk]⟩

/-- C7 (amended) witness: the three failure modes at concrete inputs — a
missing file, an unparseable file, and a missing non-empty key. -/
theorem ignite_dataset_failures_witness :
    ignite_dataset (fun _ => none) (fun _ => none) "p" none = .error .notFound ∧
    ignite_dataset (fun _ => some "not valid json") (fun _ => none) "p" none =
      .error .parseError ∧
    ignite_dataset (fun _ => some "emptyobj") (fun _ => some (.obj [])) "p" (some "k") =
      .error .keyError :=
  ⟨(ignite_dataset_failures (fun _ => none) (fun _ => none) "p").1 none rfl,
   (ignite_dataset_failures (fun _ => some "not valid json") (fun _ => none) "p").2.1
     none "not valid json" rfl rfl,
   (ignite_dataset_failures (fun _ => some "emptyobj") (fun _ => some (.obj [])) "p").2.2
     "k" "emptyobj" [] rfl rfl (by decide) rfl⟩

/-- Helper: `mapM` over `Option` fails as soon as one element fails. -/
theorem mapM_option_none (f : A → Option B) (l : List A) (a : A) (ha : a ∈ l)
    (h : f a = none) : l.mapM f = none := by
  rw [← List.mapM'_eq_mapM]
  induction l with
  | nil => cases ha
  | cons x xs ih =>
    rcases List.mem_cons.mp ha with hx | hx
    · subst hx
      simp [List.mapM', h]
    · cases hfx : f x with
      | none => simp [List.mapM', hfx]
      | some b => simp [List.mapM', hfx, ih hx]

/-- Helper: `mapM` over `Option` succeeds when every element succeeds, with
an order-preserving, length-preserving result. -/
theorem mapM_option_some (f : A → Option B) (l : List A) :
    (∀ a ∈ l, (f a).isSome) →
    ∃ ts : List B, l.mapM f = some ts ∧ ts.length = l.length ∧
      ∀ (i : Nat) (h1 : i < l.length) (h2 : i < ts.length),
        f (l.get ⟨i, h1⟩) = some (ts.get ⟨i, h2⟩) := by
  rw [← List.mapM'_eq_mapM]
  induction l with
  | nil =>
    intro _
    exact ⟨[], rfl, rfl, fun i h1 => absurd h1 (by simp)⟩
  | cons a as ih =>
    intro h
    obtain ⟨b, hb⟩ := Option.isSome_iff_exists.mp (h a (List.mem_cons_self a as))
    obtain ⟨ts, hts, hlen, hpt⟩ := ih (fun x hx => h x (List.mem_cons_of_mem a hx))
    refine ⟨b :: ts, ?_, by simp [hlen], ?_⟩
    · simp [List.mapM', hb, hts]
    · intro i h1 h2
      cases i with
      | zero => simpa using hb
      | succ n => simpa using hpt n (by simpa using h1) (by simpa using h2)

/-- C3: if any Document of the collection lacks the `content` field or the
`title` field, the Text/Label Extractor fails (the comprehension raises, no
partial result is returned). -/
theorem extract_missing_field (docs : List Doc) (d : Doc) (hd : d ∈ docs)
    (h : getField d "content" = none ∨ getField d "title" = none) :
    extract docs = none := by
  rcases h with h | h
  · have hts : extractTexts docs = none := mapM_option_none _ docs d hd h
    simp [extract, hts]
  · have hls : extractLabels docs = none := mapM_option_none _ docs d hd h
    cases hts : extractTexts docs with
    | none => simp [extract, hts]
    | some ts => simp [extract, hts, hls]

/-- C3 witness: a single Document with `content` but no `title`; the
extraction fails. -/
theorem extract_missing_field_witness :
    extract [[("content", "x")]] = none :=
  extract_missing_field [[("content", "x")]] [("content", "x")]
    (List.mem_singleton.mpr rfl) (Or.inr rfl)

/-- Helper: full specification of the extraction on a valid collection. -/
theorem extract_spec (docs : List Doc)
    (h : ∀ d ∈ docs, (getField d "content").isSome ∧ (getField d "title").isSome) :
    ∃ ts ls, extract docs = some (ts, ls) ∧
      ts.length = docs.length ∧ ls.length = docs.length ∧
      ∀ (i : Nat) (hi : i < docs.length),
        (∀ hti : i < ts.length,
          getField (docs.get ⟨i, hi⟩) "content" = some (ts.get ⟨i, hti⟩)) ∧
        (∀ hli : i < ls.length,
          getField (docs.get ⟨i, hi⟩) "title" = some (ls.get ⟨i, hli⟩)) := by
  obtain ⟨ts, hts, htlen, htpt⟩ :=
    mapM_option_some (fun d => getField d "content") docs (fun d hd => (h d hd).1)
  obtain ⟨ls, hls, hllen, hlpt⟩ :=
    mapM_option_some (fun d => getField d "title") docs (fun d hd => (h d hd).2)
  refine ⟨ts, ls, ?_, htlen, hllen, fun i hi => ⟨fun hti => ?_, fun hli => ?_⟩⟩
  · have h1 : extractTexts docs = some ts := hts
    have h2 : extractLabels docs = some ls := hls
    simp [extract, h1, h2]
  · exact htpt i hi hti
  · exact hlpt i hi hli

/-- C9: on a collection of n Documents all carrying `content` and `title`,
the Text/Label Extractor returns two sequences of length n where the i-th
text is document i's `content` and the i-th label is document i's `title`,
in input order. -/
theorem extract_ok (docs : List Doc)
    (h : ∀ d ∈ docs, (getField d "content").isSome ∧ (getField d "title").isSome) :
    ∃ ts ls, extract docs = some (ts, ls) ∧
      ts.length = docs.length ∧ ls.length = docs.length ∧
      ∀ (i : Nat) (hi : i < docs.length),
        (∀ hti : i < ts.length,
          getField (docs.get ⟨i, hi⟩) "content" = some (ts.get ⟨i, hti⟩)) ∧
        (∀ hli : i < ls.length,
          getField (docs.get ⟨i, hi⟩) "title" = some (ls.get ⟨i, hli⟩)) :=
  extract_spec docs h

/-- C9 witness: two concrete Documents; the extractor returns their
contents and titles in order. -/
theorem extract_ok_witness :
    ∃ ts ls,
      extract [[("content", "c1"), ("title", "t1")],
               [("title", "t2"), ("content", "c2")]] = some (ts, ls) ∧
      ts.length = 2 ∧ ls.length = 2 := by
  obtain ⟨ts, ls, h1, h2, h3, _⟩ :=
    extract_ok [[("content", "c1"), ("title", "t1")],
                [("title", "t2"), ("content", "c2")]] (by decide)
  exact ⟨ts, ls, h1, h2, h3⟩

/-- Helper: `zip(..., strict=False)` yields as many rows as the shortest of
the five sequences. -/
theorem zip5_length {A B C D E : Type} (a : List A) (b : List B) (c : List C)
    (d : List D) (e : List E) :
    (zip5 a b c d e).length =
      min a.length (min b.length (min c.length (min d.length e.length))) := by
  induction a generalizing b c d e with
  | nil => simp [zip5]
  | cons x xs ih =>
    cases b with
    | nil => simp [zip5]
    | cons y ys =>
      cases c with
      | nil => simp [zip5]
      | cons z zs =>
        cases d with
        | nil => simp [zip5]
        | cons u us =>
          cases e with
          | nil => simp [zip5]
          | cons v vs =>
            simp only [zip5, List.length_cons, ih]
            omega

/-- Helper: entry `i` of the zipped rows is the 5-tuple of the entries `i`
of the five sequences. -/
theorem zip5_getD {A B C D E : Type} (a : List A) (b : List B) (c : List C)
    (d : List D) (e : List E) (i : Nat) (hi : i < (zip5 a b c d e).length)
    (da : A) (db : B) (dc : C) (dd : D) (de : E) :
    (zip5 a b c d e).getD i (da, db, dc, dd, de) =
      (a.getD i da, b.getD i db, c.getD i dc, d.getD i dd, e.getD i de) := by
  induction a generalizing b c d e i with
  | nil => simp [zip5] at hi
  | cons x xs ih =>
    cases b with
    | nil => simp [zip5] at hi
    | cons y ys =>
      cases c with
      | nil => simp [zip5] at hi
      | cons z zs =>
        cases d with
        | nil => simp [zip5] at hi
        | cons u us =>
          cases e with
          | nil => simp [zip5] at hi
          | cons v vs =>
            cases i with
            | zero => simp [zip5]
            | succ n =>
              simp only [zip5, List.getD_cons_succ]
              exact ih ys zs us vs n (by simpa [zip5] using hi)

/-- Helper: `arr[:, j]` has one entry per row. -/
theorem NDArray2.col_length (re : NDArray2 α) (j : Nat) :
    (re.col j).length = re.nrows := by
  simp [NDArray2.col]

/-- Helper: entry `i` of `arr[:, j]` is `arr[i, j]`. -/
theorem NDArray2.col_getD (re : NDArray2 α) (j i : Nat) (hi : i < re.nrows)
    (d : α) : (re.col j).getD i d = re.entry i j := by
  simp [NDArray2.col, List.getD_eq_getElem?_getD, List.getElem?_map,
    List.getElem?_range hi]

/-- Helper: on equal-length non-empty inputs with a 2-column point array,
`prepare2d` succeeds; the table has one row per input position, the renamed
header, and row `i` is
`(docs[i], topics[i], labels[i], points[i, 0], points[i, 1])`. -/
theorem prepare2d_ok {T K L α : Type} (docs : List T) (topics : List K)
    (labels : List L) (re : NDArray2 α) (n : Nat) (h1 : docs.length = n)
    (h2 : topics.length = n) (h3 : labels.length = n) (h4 : re.nrows = n)
    (h5 : re.ncols = 2) (h6 : 0 < n) :
    ∃ tbl, prepare2d docs topics labels re = .ok tbl ∧
      tbl.rows.length = n ∧
      tbl.columns = ["text", "topic", "label", "x", "y"] ∧
      ∀ i, i < n → ∀ (dT : T) (dK : K) (dL : L) (dx dy : α),
        tbl.rows.getD i (dT, dK, dL, dx, dy) =
          (docs.getD i dT, topics.getD i dK, labels.getD i dL,
           re.entry i 0, re.entry i 1) := by
  have hlen : (zip5 docs topics labels (re.col 0) (re.col 1)).length = n := by
    rw [zip5_length, NDArray2.col_length, NDArray2.col_length, h1, h2, h3, h4]
    omega
  have hne : (zip5 docs topics labels (re.col 0) (re.col 1)).isEmpty = false := by
    rw [List.isEmpty_eq_false_iff_exists_mem]
    rcases List.exists_mem_of_length_pos (by rw [hlen]; exact h6) with ⟨x, hx⟩
    exact ⟨x, hx⟩
  refine ⟨⟨renameCols ["column_0", "column_1", "column_2", "column_3", "column_4"]
      COLS_MAPPING, zip5 docs topics labels (re.col 0) (re.col 1)⟩, ?_, hlen, ?_, ?_⟩
  · simp only [prepare2d, if_pos h5, hne, Bool.false_eq_true, if_false]
  · rfl
  · intro i hi dT dK dL dx dy
    rw [zip5_getD docs topics labels (re.col 0) (re.col 1) i (by rw [hlen]; exact hi),
      NDArray2.col_getD re 0 i (h4 ▸ hi), NDArray2.col_getD re 1 i (h4 ▸ hi)]

/-- C1 counterexample: four parallel sequences of unequal lengths (2, 2, 1,
and 2 points).  The claim says the build fails fatally with no partial
table; instead `zip(..., strict=False)` silently truncates and `prepare2d`
returns a 1-row partial table. -/
theorem prepare2d_mismatch_counterexample :
    (["l1"] : List String).length ≠ (["a", "b"] : List String).length ∧
    prepare2d ["a", "b"] [0, 1] ["l1"] (⟨2, 2, fun i j => i + j⟩ : NDArray2 Nat) =
      .ok ⟨["text", "topic", "label", "x", "y"], [("a", 0, "l1", 0, 1)]⟩ :=
  ⟨by decide, rfl⟩

/-- C1 (amended): on length-mismatched inputs with a 2-column point array,
the Tabular View Builder does not fail: it silently truncates all sequences
to the shortest length and returns that many rows; only when the shortest
sequence is empty does the build fail (polars no-data error), and then with
no partial table. -/
theorem prepare2d_truncates {T K L α : Type} (docs : List T) (topics : List K)
    (labels : List L) (re : NDArray2 α) (h5 : re.ncols = 2) :
    (0 < min docs.length (min topics.length (min labels.length re.nrows)) →
      ∃ tbl, prepare2d docs topics labels re = .ok tbl ∧
        tbl.rows.length =
          min docs.length (min topics.length (min labels.length re.nrows))) ∧
    (min docs.length (min topics.length (min labels.length re.nrows)) = 0 →
      prepare2d docs topics labels re = .error .noDataError) := by
  have hlen : (zip5 docs topics labels (re.col 0) (re.col 1)).length =
      min docs.length (min topics.length (min labels.length re.nrows)) := by
    rw [zip5_length, NDArray2.col_length, NDArray2.col_length]
    omega
  constructor
  · intro hpos
    have hne : (zip5 docs topics labels (re.col 0) (re.col 1)).isEmpty = false := by
      rw [List.isEmpty_eq_false_iff_exists_mem]
      rcases List.exists_mem_of_length_pos (by rw [hlen]; exact hpos) with ⟨x, hx⟩
      exact ⟨x, hx⟩
    exact ⟨⟨renameCols ["column_0", "column_1", "column_2", "column_3", "column_4"]
        COLS_MAPPING, zip5 docs topics labels (re.col 0) (re.col 1)⟩,
      by simp only [prepare2d, if_pos h5, hne, Bool.false_eq_true, if_false], hlen⟩
  · intro hz
    have hei : (zip5 docs topics labels (re.col 0) (re.col 1)).isEmpty = true := by
      rw [List.isEmpty_iff, ← List.length_eq_zero, hlen]
      exact hz
    simp only [prepare2d, if_pos h5, hei, if_true]

/-- C1 (amended) witness: the truncating branch at the counterexample's
mismatched input (shortest length 1), and the no-data branch on an input
whose shortest sequence is empty. -/
theorem prepare2d_truncates_witness :
    (∃ tbl, prepare2d ["a", "b"] [0, 1] ["l1"]
        (⟨2, 2, fun i j => i + j⟩ : NDArray2 Nat) = .ok tbl ∧
      tbl.rows.length =
        min (["a", "b"] : List String).length
          (min ([0, 1] : List Nat).length
            (min (["l1"] : List String).length
              (⟨2, 2, fun i j => i + j⟩ : NDArray2 Nat).nrows))) ∧
    prepare2d ([] : List String) [0] ["l"]
        (⟨0, 2, fun _ _ => (0 : Nat)⟩ : NDArray2 Nat) = .error .noDataError :=
  ⟨(prepare2d_truncates ["a", "b"] [0, 1] ["l1"]
      (⟨2, 2, fun i j => i + j⟩ : NDArray2 Nat) rfl).1 (by decide),
   (prepare2d_truncates ([] : List String) [0] ["l"]
      (⟨0, 2, fun _ _ => (0 : Nat)⟩ : NDArray2 Nat) rfl).2 (by decide)⟩

/-- C2: `prepare2d` on a 2-column point array passes the shape assertion
(the build is never rejected by it), while on any point array whose column
count is not 2 the assertion fires immediately and no table is returned. -/
theorem prepare2d_assert_2cols {T K L α : Type} (docs : List T) (topics : List K)
    (labels : List L) (re : NDArray2 α) :
    (re.ncols = 2 → prepare2d docs topics labels re ≠ .error .assertionError) ∧
    (re.ncols ≠ 2 → prepare2d docs topics labels re = .error .assertionError) := by
  constructor
  · intro h2
    simp only [prepare2d, if_pos h2]
    split <;> simp
  · intro h2
    simp [prepare2d, h2]

/-- C2 witness: a 1×2 array passes the assertion and the build proceeds; a
1×3 array is rejected with the assertion error. -/
theorem prepare2d_assert_2cols_witness :
    prepare2d ["a"] [0] ["l"] (⟨1, 2, fun i j => i + j⟩ : NDArray2 Nat) ≠
      .error .assertionError ∧
    prepare2d ["a"] [0] ["l"] (⟨1, 3, fun i j => i + j⟩ : NDArray2 Nat) =
      .error .assertionError :=
  ⟨(prepare2d_assert_2cols ["a"] [0] ["l"]
      (⟨1, 2, fun i j => i + j⟩ : NDArray2 Nat)).1 rfl,
   (prepare2d_assert_2cols ["a"] [0] ["l"]
      (⟨1, 3, fun i j => i + j⟩ : NDArray2 Nat)).2 (by decide)⟩

/-- C4: on equal-length inputs (with the enforced 2-column point shape and
at least one row), the table row order matches the input order exactly: row
`i` is `(documents[i], topics[i], labels[i], points[i].x, points[i].y)` for
every `i`. -/
theorem prepare2d_row_order {T K L α : Type} (docs : List T) (topics : List K)
    (labels : List L) (re : NDArray2 α) (n : Nat) (h1 : docs.length = n)
    (h2 : topics.length = n) (h3 : labels.length = n) (h4 : re.nrows = n)
    (h5 : re.ncols = 2) (h6 : 0 < n) :
    ∃ tbl, prepare2d docs topics labels re = .ok tbl ∧ tbl.rows.length = n ∧
      ∀ i, i < n → ∀ (dT : T) (dK : K) (dL : L) (dx dy : α),
        tbl.rows.getD i (dT, dK, dL, dx, dy) =
          (docs.getD i dT, topics.getD i dK, labels.getD i dL,
           re.entry i 0, re.entry i 1) := by
  obtain ⟨tbl, ha, hb, _, hd⟩ := prepare2d_ok docs topics labels re n h1 h2 h3 h4 h5 h6
  exact ⟨tbl, ha, hb, hd⟩

/-- C4 witness: two concrete rows; each table row is the tuple of the
corresponding input entries. -/
theorem prepare2d_row_order_witness :
    ∃ tbl, prepare2d ["a", "b"] [10, 20] ["p", "q"]
        (⟨2, 2, fun i j => 10 * i + j⟩ : NDArray2 Nat) = .ok tbl ∧
      tbl.rows.length = 2 ∧
      ∀ i, i < 2 → ∀ (dT : String) (dK : Nat) (dL : String) (dx dy : Nat),
        tbl.rows.getD i (dT, dK, dL, dx, dy) =
          ((["a", "b"] : List String).getD i dT, ([10, 20] : List Nat).getD i dK,
           (["p", "q"] : List String).getD i dL,
           (⟨2, 2, fun i j => 10 * i + j⟩ : NDArray2 Nat).entry i 0,
           (⟨2, 2, fun i j => 10 * i + j⟩ : NDArray2 Nat).entry i 1) :=
  prepare2d_row_order ["a", "b"] [10, 20] ["p", "q"]
    (⟨2, 2, fun i j => 10 * i + j⟩ : NDArray2 Nat) 2 rfl rfl rfl rfl rfl (by decide)

/-- C5: five Documents all carrying `content` and `title`, a topic sequence
of length 5 and a 5×2 point array yield a table with exactly 5 rows and with
columns named exactly `text, topic, label, x, y`, in that order. -/
theorem prepare2d_five_documents {K α : Type} (docs : List Doc) (topics : List K)
    (re : NDArray2 α) (h1 : docs.length = 5)
    (h2 : ∀ d ∈ docs, (getField d "content").isSome ∧ (getField d "title").isSome)
    (h3 : topics.length = 5) (h4 : re.nrows = 5) (h5 : re.ncols = 2) :
    ∃ ts ls tbl, extract docs = some (ts, ls) ∧
      prepare2d ts topics ls re = .ok tbl ∧
      tbl.rows.length = 5 ∧
      tbl.columns = ["text", "topic", "label", "x", "y"] := by
  obtain ⟨ts, ls, he, htl, hll, _⟩ := extract_spec docs h2
  obtain ⟨tbl, ha, hb, hc, _⟩ :=
    prepare2d_ok ts topics ls re 5 (htl.trans h1) h3 (hll.trans h1) h4 h5 (by decide)
  exact ⟨ts, ls, tbl, he, ha, hb, hc⟩

/-- C5 witness: five concrete Documents, five topics, a 5×2 point array. -/
theorem prepare2d_five_documents_witness :
    ∃ ts ls tbl,
      extract [[("content", "c1"), ("title", "t1")],
               [("content", "c2"), ("title", "t2")],
               [("content", "c3"), ("title", "t3")],
               [("content", "c4"), ("title", "t4")],
               [("content", "c5"), ("title", "t5")]] = some (ts, ls) ∧
      prepare2d ts [1, 2, 3, 4, 5] ls
        (⟨5, 2, fun i j => i + j⟩ : NDArray2 Nat) = .ok tbl ∧
      tbl.rows.length = 5 ∧
      tbl.columns = ["text", "topic", "label", "x", "y"] :=
  prepare2d_five_documents
    [[("content", "c1"), ("title", "t1")],
     [("content", "c2"), ("title", "t2")],
     [("content", "c3"), ("title", "t3")],
     [("content", "c4"), ("title", "t4")],
     [("content", "c5"), ("title", "t5")]] [1, 2, 3, 4, 5]
    (⟨5, 2, fun i j => i + j⟩ : NDArray2 Nat) rfl (by decide) rfl rfl rfl

end HelloClustering
